import Mathlib

/-!
Verification of the coordinate transformation engine of the 3dtiles
repository (`coordinate_system.cpp`, `coordinate_transformer.cpp` and their
headers).  C++ `double` values are modelled as real numbers, glm vectors and
column-major 4x4 matrices as explicit structures, and the two external
collaborators (the OGR projection handle and the global geoid calculator)
as explicit parameters of the transformer state.
-/

noncomputable section

/-- Component-wise model of `glm::dvec3`. -/
structure Vec3 where
  x : ℝ
  y : ℝ
  z : ℝ

/-- Component-wise model of `glm::dvec4`. -/
structure Vec4 where
  x : ℝ
  y : ℝ
  z : ℝ
  w : ℝ

/-- Model of `glm::dmat4`: four columns, column-major exactly as glm stores
and constructs them (the 16-scalar glm constructor fills `c0` first). -/
structure Mat4 where
  c0 : Vec4
  c1 : Vec4
  c2 : Vec4
  c3 : Vec4

namespace Mat4

/-- glm matrix-vector product `m * v`: the linear combination of the
columns of `m` with the components of `v`. -/
def mulVec (m : Mat4) (v : Vec4) : Vec4 :=
  ⟨m.c0.x * v.x + m.c1.x * v.y + m.c2.x * v.z + m.c3.x * v.w,
   m.c0.y * v.x + m.c1.y * v.y + m.c2.y * v.z + m.c3.y * v.w,
   m.c0.z * v.x + m.c1.z * v.y + m.c2.z * v.z + m.c3.z * v.w,
   m.c0.w * v.x + m.c1.w * v.y + m.c2.w * v.z + m.c3.w * v.w⟩

/-- glm matrix product `a * b`, column by column. -/
def mul (a b : Mat4) : Mat4 :=
  ⟨a.mulVec b.c0, a.mulVec b.c1, a.mulVec b.c2, a.mulVec b.c3⟩

/-- Model of `glm::dmat4(1.0)`. -/
def identity : Mat4 :=
  ⟨⟨1, 0, 0, 0⟩, ⟨0, 1, 0, 0⟩, ⟨0, 0, 1, 0⟩, ⟨0, 0, 0, 1⟩⟩

/-- The C++ idiom `glm::dvec3 r = m * glm::dvec4(v, 1.0)`: apply the
homogeneous matrix to a point and truncate to the first three components. -/
def mulPoint (m : Mat4) (v : Vec3) : Vec3 :=
  let r := m.mulVec ⟨v.x, v.y, v.z, 1⟩
  ⟨r.x, r.y, r.z⟩

end Mat4

/-- Determinant of a 3x3 matrix given row-major. -/
def det3 (a b c d e f g h i : ℝ) : ℝ :=
  a * e * i + b * f * g + c * d * h - c * e * g - b * d * i - a * f * h

namespace Mat4

/-- Determinant of a 4x4 matrix, Laplace expansion along the first row
(rows are the `.x`/`.y`/`.z`/`.w` fields of each column). -/
def det (m : Mat4) : ℝ :=
  m.c0.x * det3 m.c1.y m.c2.y m.c3.y m.c1.z m.c2.z m.c3.z m.c1.w m.c2.w m.c3.w
  - m.c1.x * det3 m.c0.y m.c2.y m.c3.y m.c0.z m.c2.z m.c3.z m.c0.w m.c2.w m.c3.w
  + m.c2.x * det3 m.c0.y m.c1.y m.c3.y m.c0.z m.c1.z m.c3.z m.c0.w m.c1.w m.c3.w
  - m.c3.x * det3 m.c0.y m.c1.y m.c2.y m.c0.z m.c1.z m.c2.z m.c0.w m.c1.w m.c2.w

/-- Scalar multiple of a matrix, component-wise. -/
def smulM (s : ℝ) (m : Mat4) : Mat4 :=
  ⟨⟨s * m.c0.x, s * m.c0.y, s * m.c0.z, s * m.c0.w⟩,
   ⟨s * m.c1.x, s * m.c1.y, s * m.c1.z, s * m.c1.w⟩,
   ⟨s * m.c2.x, s * m.c2.y, s * m.c2.z, s * m.c2.w⟩,
   ⟨s * m.c3.x, s * m.c3.y, s * m.c3.z, s * m.c3.w⟩⟩

/-- Adjugate (transposed cofactor matrix) of a 4x4 matrix.  Column `j` of
the adjugate collects the cofactors of row `j` of `m`. -/
def adj (m : Mat4) : Mat4 :=
  { c0 := ⟨(det3 m.c1.y m.c2.y m.c3.y m.c1.z m.c2.z m.c3.z m.c1.w m.c2.w m.c3.w),
           (-(det3 m.c0.y m.c2.y m.c3.y m.c0.z m.c2.z m.c3.z m.c0.w m.c2.w m.c3.w)),
           (det3 m.c0.y m.c1.y m.c3.y m.c0.z m.c1.z m.c3.z m.c0.w m.c1.w m.c3.w),
           (-(det3 m.c0.y m.c1.y m.c2.y m.c0.z m.c1.z m.c2.z m.c0.w m.c1.w m.c2.w))⟩,
    c1 := ⟨(-(det3 m.c1.x m.c2.x m.c3.x m.c1.z m.c2.z m.c3.z m.c1.w m.c2.w m.c3.w)),
           (det3 m.c0.x m.c2.x m.c3.x m.c0.z m.c2.z m.c3.z m.c0.w m.c2.w m.c3.w),
           (-(det3 m.c0.x m.c1.x m.c3.x m.c0.z m.c1.z m.c3.z m.c0.w m.c1.w m.c3.w)),
           (det3 m.c0.x m.c1.x m.c2.x m.c0.z m.c1.z m.c2.z m.c0.w m.c1.w m.c2.w)⟩,
    c2 := ⟨(det3 m.c1.x m.c2.x m.c3.x m.c1.y m.c2.y m.c3.y m.c1.w m.c2.w m.c3.w),
           (-(det3 m.c0.x m.c2.x m.c3.x m.c0.y m.c2.y m.c3.y m.c0.w m.c2.w m.c3.w)),
           (det3 m.c0.x m.c1.x m.c3.x m.c0.y m.c1.y m.c3.y m.c0.w m.c1.w m.c3.w),
           (-(det3 m.c0.x m.c1.x m.c2.x m.c0.y m.c1.y m.c2.y m.c0.w m.c1.w m.c2.w))⟩,
    c3 := ⟨(-(det3 m.c1.x m.c2.x m.c3.x m.c1.y m.c2.y m.c3.y m.c1.z m.c2.z m.c3.z)),
           (det3 m.c0.x m.c2.x m.c3.x m.c0.y m.c2.y m.c3.y m.c0.z m.c2.z m.c3.z),
           (-(det3 m.c0.x m.c1.x m.c3.x m.c0.y m.c1.y m.c3.y m.c0.z m.c1.z m.c3.z)),
           (det3 m.c0.x m.c1.x m.c2.x m.c0.y m.c1.y m.c2.y m.c0.z m.c1.z m.c2.z)⟩ }

/-- Model of `glm::inverse` on `dmat4`: the adjugate divided by the
determinant (the classical cofactor formula glm implements). -/
def inverse (m : Mat4) : Mat4 :=
  smulM (1 / m.det) m.adj

end Mat4

/-- Coordinate system type tag, from `coordinate_system.h` (`CoordinateType`). -/
inductive CoordinateType
  | Unknown
  | LocalCartesian
  | ENU
  | EPSG
  | WKT
deriving DecidableEq

/-- Up-axis direction, from `coordinate_system.h` (`UpAxis`). -/
inductive UpAxis
  | Y_UP
  | Z_UP
deriving DecidableEq

/-- Coordinate system handedness, from `coordinate_system.h` (`Handedness`). -/
inductive Handedness
  | RightHanded
  | LeftHanded
deriving DecidableEq

/-- Vertical datum, from `coordinate_system.h` (`VerticalDatum`). -/
inductive VerticalDatum
  | Ellipsoidal
  | Orthometric
  | Unknown
deriving DecidableEq

/-- Geographic reference point, from `coordinate_system.h` (`GeoReference`). -/
structure GeoReference where
  lon : ℝ
  lat : ℝ
  height : ℝ
  datum : VerticalDatum := VerticalDatum.Ellipsoidal

/-- Local Cartesian parameters, from `coordinate_system.h`. -/
structure LocalCartesianParams where
  up_axis : UpAxis := UpAxis.Y_UP
  handedness : Handedness := Handedness.RightHanded

/-- ENU parameters, from `coordinate_system.h` (`ENUParams`). -/
structure ENUParams where
  origin_lon : ℝ
  origin_lat : ℝ
  origin_height : ℝ
  offset_x : ℝ
  offset_y : ℝ
  offset_z : ℝ

/-- EPSG parameters, from `coordinate_system.h` (`EPSGParams`). -/
structure EPSGParams where
  code : Int
  origin_x : ℝ
  origin_y : ℝ
  origin_z : ℝ
  vertical_datum : VerticalDatum := VerticalDatum.Unknown

/-- WKT parameters, from `coordinate_system.h` (`WKTParams`). -/
structure WKTParams where
  wkt : String
  origin_x : ℝ
  origin_y : ℝ
  origin_z : ℝ
  vertical_datum : VerticalDatum := VerticalDatum.Unknown

/-- The `CoordinateSystem` value: `type_` tag plus the matching variant of
the `params_` std::variant.  The tag always matches the payload, which the
C++ factory methods guarantee, so the two are fused into one inductive. -/
inductive CoordinateSystem
  | unknown
  | localCartesian (p : LocalCartesianParams)
  | enu (p : ENUParams)
  | epsg (p : EPSGParams)
  | wkt (p : WKTParams)

namespace CoordinateSystem

/-- The `Type()` accessor. -/
def ctype : CoordinateSystem → CoordinateType
  | .unknown => .Unknown
  | .localCartesian _ => .LocalCartesian
  | .enu _ => .ENU
  | .epsg _ => .EPSG
  | .wkt _ => .WKT

/-- `IsValid()` from `coordinate_system.h`. -/
def IsValid (cs : CoordinateSystem) : Bool :=
  cs.ctype != CoordinateType.Unknown

/-- `NeedsOGRTransform()` from `coordinate_system.cpp`. -/
def NeedsOGRTransform (cs : CoordinateSystem) : Bool :=
  cs.ctype == CoordinateType.EPSG || cs.ctype == CoordinateType.WKT

/-- `HasBuiltinGeoReference()` from `coordinate_system.cpp`. -/
def HasBuiltinGeoReference (cs : CoordinateSystem) : Bool :=
  cs.ctype == CoordinateType.ENU

/-- `GetSourceOrigin()` from `coordinate_system.cpp`. -/
def GetSourceOrigin : CoordinateSystem → ℝ × ℝ × ℝ
  | .enu p => (p.offset_x, p.offset_y, p.offset_z)
  | .epsg p => (p.origin_x, p.origin_y, p.origin_z)
  | .wkt p => (p.origin_x, p.origin_y, p.origin_z)
  | .localCartesian _ => (0, 0, 0)
  | .unknown => (0, 0, 0)

/-- `GetENUParams()` from `coordinate_system.cpp`. -/
def GetENUParams : CoordinateSystem → Option ENUParams
  | .enu p => some p
  | _ => none

/-- `GetVerticalDatum()` from `coordinate_system.cpp`. -/
def GetVerticalDatum : CoordinateSystem → VerticalDatum
  | .epsg p => p.vertical_datum
  | .wkt p => p.vertical_datum
  | .enu _ => .Ellipsoidal
  | .localCartesian _ => .Ellipsoidal
  | .unknown => .Unknown

/-- `GetUpAxis()` from `coordinate_system.cpp`: the stored axis for
LocalCartesian, `Y_UP` for every other variant. -/
def GetUpAxis : CoordinateSystem → UpAxis
  | .localCartesian p => p.up_axis
  | _ => .Y_UP

end CoordinateSystem

/-- Transformation mode, from `coordinate_transformer.h` (`TransformMode`). -/
inductive TransformMode
  | None
  | WithGeoReference
deriving DecidableEq

/-- Geoid model selector of the external GeoidHeight library. -/
inductive GeoidModel
  | EGM84
  | EGM96
  | EGM2008
deriving DecidableEq

/-- Geoid configuration, from `coordinate_transformer.h` (`GeoidConfig`). -/
structure GeoidConfig where
  enabled : Bool := false
  model : GeoidModel := GeoidModel.EGM96
  data_path : String := ""

/-- `GeoidConfig::Disabled()`. -/
def GeoidConfig.Disabled : GeoidConfig := { enabled := false }

/-- Abstract state of the external global geoid calculator
(`GeoidHeight::GetGlobalGeoidCalculator()`): whether it is initialized and
what its orthometric-to-ellipsoidal conversion returns.  The transformer
only consumes these two entry points. -/
structure GeoidCalculator where
  isInitialized : Bool
  convertOrthometricToEllipsoidal : ℝ → ℝ → ℝ → ℝ

/-- WGS84 semi-major axis, from `coordinate_transformer.cpp`. -/
def WGS84_A : ℝ := 6378137

/-- WGS84 flattening, from `coordinate_transformer.cpp`. -/
def WGS84_F : ℝ := 1 / 298.257223563

/-- WGS84 first eccentricity squared, from `coordinate_transformer.cpp`. -/
def WGS84_E2 : ℝ := WGS84_F * (2 - WGS84_F)

/-- `CoordinateTransformer::GetAxisTransformMatrix` translated verbatim:
the glm 16-scalar constructor is column-major, so each textual row of the
C++ literal is a column of the matrix. -/
def GetAxisTransformMatrix (fromAxis toAxis : UpAxis) : Mat4 :=
  if fromAxis = toAxis then
    Mat4.identity
  else if fromAxis = UpAxis.Z_UP ∧ toAxis = UpAxis.Y_UP then
    ⟨⟨1, 0, 0, 0⟩, ⟨0, 0, 1, 0⟩, ⟨0, -1, 0, 0⟩, ⟨0, 0, 0, 1⟩⟩
  else
    ⟨⟨1, 0, 0, 0⟩, ⟨0, 0, -1, 0⟩, ⟨0, 1, 0, 0⟩, ⟨0, 0, 0, 1⟩⟩

/-- `CoordinateTransformer::CalcEnuToEcefMatrix` translated from the
source: east/north/up basis columns and the ECEF origin in the fourth
column. -/
def CalcEnuToEcefMatrix (lon_deg lat_deg height : ℝ) : Mat4 :=
  let lon := lon_deg * Real.pi / 180
  let phi := lat_deg * Real.pi / 180
  let sinPhi := Real.sin phi
  let cosPhi := Real.cos phi
  let sinLon := Real.sin lon
  let cosLon := Real.cos lon
  let N := WGS84_A / Real.sqrt (1 - WGS84_E2 * sinPhi * sinPhi)
  let x0 := (N + height) * cosPhi * cosLon
  let y0 := (N + height) * cosPhi * sinLon
  let z0 := (N * (1 - WGS84_E2) + height) * sinPhi
  { c0 := ⟨-sinLon, cosLon, 0, 0⟩,
    c1 := ⟨-sinPhi * cosLon, -sinPhi * sinLon, cosPhi, 0⟩,
    c2 := ⟨cosPhi * cosLon, cosPhi * sinLon, sinPhi, 0⟩,
    c3 := ⟨x0, y0, z0, 1⟩ }

/-- `CoordinateTransformer::CartographicToEcef` translated from the
source. -/
def CartographicToEcef (lon_deg lat_deg height : ℝ) : Vec3 :=
  let lon := lon_deg * Real.pi / 180
  let phi := lat_deg * Real.pi / 180
  let sinPhi := Real.sin phi
  let cosPhi := Real.cos phi
  let sinLon := Real.sin lon
  let cosLon := Real.cos lon
  let N := WGS84_A / Real.sqrt (1 - WGS84_E2 * sinPhi * sinPhi)
  ⟨(N + height) * cosPhi * cosLon,
   (N + height) * cosPhi * sinLon,
   (N * (1 - WGS84_E2) + height) * sinPhi⟩

/-- `CoordinateTransformer::ShouldApplyGeoidCorrection` translated from the
source, with the geoid config and the global calculator passed
explicitly. -/
def ShouldApplyGeoidCorrection (cs : CoordinateSystem) (gc : GeoidConfig)
    (geoid : GeoidCalculator) : Bool :=
  if !gc.enabled then false
  else if !geoid.isInitialized then false
  else
    match cs.ctype with
    | .EPSG | .WKT =>
        let datum := cs.GetVerticalDatum
        datum == VerticalDatum.Orthometric || datum == VerticalDatum.Unknown
    | .ENU => false
    | .LocalCartesian => false
    | _ => false

/-- `CoordinateTransformer::ApplyGeoidCorrection` translated from the
source. -/
def ApplyGeoidCorrection (cs : CoordinateSystem) (gc : GeoidConfig)
    (geoid : GeoidCalculator) (lat lon height : ℝ) : ℝ :=
  if !(ShouldApplyGeoidCorrection cs gc geoid) then height
  else geoid.convertOrthometricToEllipsoidal lat lon height

/-- Instance state of `CoordinateTransformer` after construction.  The OGR
projection handle is modelled as an optional function from source
coordinates to WGS84 `(lon, lat, h)`; the global geoid calculator is
carried explicitly. -/
structure CoordinateTransformer where
  source_cs : CoordinateSystem
  mode : TransformMode := TransformMode.None
  geo_origin_lon : ℝ := 0
  geo_origin_lat : ℝ := 0
  geo_origin_height : ℝ := 0
  enu_to_ecef : Mat4 := Mat4.identity
  ecef_to_enu : Mat4 := Mat4.identity
  axis_transform : Mat4 := Mat4.identity
  ogr_transform : Option (Vec3 → Vec3) := none
  geoid_config : GeoidConfig := GeoidConfig.Disabled
  geoid : GeoidCalculator

/-- Origin resolution of `InitializeWithGeoRef`: ENU uses the built-in
reference, EPSG/WKT either takes a non-zero caller reference (correcting
its height when the geoid config is enabled and the calculator
initialized) or projects the source origin through the OGR handle and
always runs it through `ApplyGeoidCorrection`; LocalCartesian (and
Unknown) take the caller reference verbatim. -/
def ResolveGeoOrigin (cs : CoordinateSystem) (geo_ref : GeoReference)
    (gc : GeoidConfig) (ogrResult : Option (Vec3 → Vec3))
    (geoid : GeoidCalculator) : ℝ × ℝ × ℝ :=
  if cs.ctype = CoordinateType.ENU then
    match cs.GetENUParams with
    | some p => (p.origin_lon, p.origin_lat, p.origin_height)
    | none => (0, 0, 0)
  else if cs.NeedsOGRTransform then
    if geo_ref.lon ≠ 0 ∨ geo_ref.lat ≠ 0 then
      let height :=
        if gc.enabled ∧ geoid.isInitialized then
          ApplyGeoidCorrection cs gc geoid geo_ref.lat geo_ref.lon geo_ref.height
        else geo_ref.height
      (geo_ref.lon, geo_ref.lat, height)
    else
      let origin0 := cs.GetSourceOrigin
      let origin : Vec3 :=
        match ogrResult with
        | some f => f ⟨origin0.1, origin0.2.1, origin0.2.2⟩
        | none => ⟨origin0.1, origin0.2.1, origin0.2.2⟩
      (origin.x, origin.y, ApplyGeoidCorrection cs gc geoid origin.y origin.x origin.z)
  else
    (geo_ref.lon, geo_ref.lat, geo_ref.height)

/-- The single-argument constructor `CoordinateTransformer(cs)`: mode
`None`, everything else left at its default member initializer. -/
def mkTransformerNone (cs : CoordinateSystem) (geoid : GeoidCalculator) :
    CoordinateTransformer :=
  { source_cs := cs, mode := TransformMode.None, geoid := geoid }

/-- The geo-referenced constructors
`CoordinateTransformer(cs, geo_ref[, geoid_config])` followed by
`InitializeWithGeoRef`: resolve the origin, cache
`enu_to_ecef`/`ecef_to_enu` (the latter via `glm::inverse`) and the axis
transform, and keep the OGR handle created for EPSG/WKT sources. -/
def mkTransformerWithGeoRef (cs : CoordinateSystem) (geo_ref : GeoReference)
    (gc : GeoidConfig) (ogrResult : Option (Vec3 → Vec3))
    (geoid : GeoidCalculator) : CoordinateTransformer :=
  let o := ResolveGeoOrigin cs geo_ref gc ogrResult geoid
  { source_cs := cs
    mode := TransformMode.WithGeoReference
    geo_origin_lon := o.1
    geo_origin_lat := o.2.1
    geo_origin_height := o.2.2
    enu_to_ecef := CalcEnuToEcefMatrix o.1 o.2.1 o.2.2
    ecef_to_enu := Mat4.inverse (CalcEnuToEcefMatrix o.1 o.2.1 o.2.2)
    axis_transform := GetAxisTransformMatrix cs.GetUpAxis UpAxis.Y_UP
    ogr_transform := if cs.NeedsOGRTransform then ogrResult else none
    geoid_config := gc
    geoid := geoid }

namespace CoordinateTransformer

/-- `HasGeoReference()` from `coordinate_transformer.h`. -/
def HasGeoReference (t : CoordinateTransformer) : Bool :=
  t.mode == TransformMode.WithGeoReference

/-- `CoordinateTransformer::ToWGS84` translated from the source.  The ENU
branch adds the SRSOrigin offset to the axis-transformed point and then
returns the geographic origin with the accumulated z added (the ECEF value
it computes on the way is discarded by the C++ as well). -/
def ToWGS84 (t : CoordinateTransformer) (point : Vec3) : Vec3 :=
  if !t.HasGeoReference then point
  else
    let result := t.axis_transform.mulPoint point
    if t.source_cs.ctype = CoordinateType.ENU then
      let result : Vec3 :=
        match t.source_cs.GetENUParams with
        | some p => ⟨result.x + p.offset_x, result.y + p.offset_y, result.z + p.offset_z⟩
        | none => result
      ⟨t.geo_origin_lon, t.geo_origin_lat, t.geo_origin_height + result.z⟩
    else
      match t.ogr_transform, t.source_cs.NeedsOGRTransform with
      | some f, true =>
          let o := t.source_cs.GetSourceOrigin
          f ⟨result.x + o.1, result.y + o.2.1, result.z + o.2.2⟩
      | _, _ =>
          ⟨t.geo_origin_lon, t.geo_origin_lat, t.geo_origin_height + result.z⟩

/-- `CoordinateTransformer::ToECEF` translated from the source: the ENU
branch goes through the cached `enu_to_ecef` matrix, every other variant
goes through `ToWGS84` and `CartographicToEcef`. -/
def ToECEF (t : CoordinateTransformer) (point : Vec3) : Vec3 :=
  if !t.HasGeoReference then point
  else
    let result := t.axis_transform.mulPoint point
    if t.source_cs.ctype = CoordinateType.ENU then
      let result : Vec3 :=
        match t.source_cs.GetENUParams with
        | some p => ⟨result.x + p.offset_x, result.y + p.offset_y, result.z + p.offset_z⟩
        | none => result
      t.enu_to_ecef.mulPoint result
    else
      let wgs84 := t.ToWGS84 point
      CartographicToEcef wgs84.x wgs84.y wgs84.z

/-- `CoordinateTransformer::ToLocalENU` translated from the source.  Note
that unlike `ToWGS84`/`ToECEF` it does not apply the axis transform, and
that its EPSG/WKT branch (and only that branch) applies the geoid height
correction before going to ECEF. -/
def ToLocalENU (t : CoordinateTransformer) (point : Vec3) : Vec3 :=
  if !t.HasGeoReference then point
  else
    let result := point
    if t.source_cs.ctype = CoordinateType.ENU then
      let result : Vec3 :=
        match t.source_cs.GetENUParams with
        | some p => ⟨result.x + p.offset_x, result.y + p.offset_y, result.z + p.offset_z⟩
        | none => result
      let ecef := t.enu_to_ecef.mulPoint result
      t.ecef_to_enu.mulPoint ecef
    else
      match t.ogr_transform, t.source_cs.NeedsOGRTransform with
      | some f, true =>
          let o := t.source_cs.GetSourceOrigin
          let projected := f ⟨result.x + o.1, result.y + o.2.1, result.z + o.2.2⟩
          let corrected :=
            ApplyGeoidCorrection t.source_cs t.geoid_config t.geoid
              projected.y projected.x projected.z
          let ecef := CartographicToEcef projected.x projected.y corrected
          t.ecef_to_enu.mulPoint ecef
      | _, _ => result

/-- `CoordinateTransformer::ConvertUpAxis` translated from the source. -/
def ConvertUpAxis (t : CoordinateTransformer) (point : Vec3)
    (target_axis : UpAxis) : Vec3 :=
  (GetAxisTransformMatrix t.source_cs.GetUpAxis target_axis).mulPoint point

end CoordinateTransformer

/-- Concrete uninitialized geoid calculator used by witnesses. -/
def trivialGeoid : GeoidCalculator := ⟨false, fun _ _ h => h⟩

/-- Concrete enabled geoid configuration used in counterexamples. -/
def enabledConfig : GeoidConfig := { enabled := true }

/-- Concrete initialized geoid calculator whose correction adds five
meters, used in counterexamples. -/
def activeGeoid : GeoidCalculator := ⟨true, fun _ _ h => h + 5⟩

/-- Lemma: Laplace-expansion identity, a matrix times its adjugate is the
determinant times the identity. -/
theorem Mat4.mul_adj (m : Mat4) :
    m.mul m.adj = Mat4.smulM m.det Mat4.identity := by
  obtain ⟨⟨a00, a10, a20, a30⟩, ⟨a01, a11, a21, a31⟩,
    ⟨a02, a12, a22, a32⟩, ⟨a03, a13, a23, a33⟩⟩ := m
  simp only [Mat4.mul, Mat4.mulVec, Mat4.adj, Mat4.smulM, Mat4.identity, Mat4.det, det3,
    Mat4.mk.injEq, Vec4.mk.injEq]
  refine ⟨⟨?_, ?_, ?_, ?_⟩, ⟨?_, ?_, ?_, ?_⟩, ⟨?_, ?_, ?_, ?_⟩, ⟨?_, ?_, ?_, ?_⟩⟩ <;> ring

/-- Lemma: the adjugate times the matrix is the determinant times the
identity. -/
theorem Mat4.adj_mul (m : Mat4) :
    m.adj.mul m = Mat4.smulM m.det Mat4.identity := by
  obtain ⟨⟨a00, a10, a20, a30⟩, ⟨a01, a11, a21, a31⟩,
    ⟨a02, a12, a22, a32⟩, ⟨a03, a13, a23, a33⟩⟩ := m
  simp only [Mat4.mul, Mat4.mulVec, Mat4.adj, Mat4.smulM, Mat4.identity, Mat4.det, det3,
    Mat4.mk.injEq, Vec4.mk.injEq]
  refine ⟨⟨?_, ?_, ?_, ?_⟩, ⟨?_, ?_, ?_, ?_⟩, ⟨?_, ?_, ?_, ?_⟩, ⟨?_, ?_, ?_, ?_⟩⟩ <;> ring

/-- Lemma: scalar multiples slide out of the second factor of a product. -/
theorem Mat4.mul_smulM (s : ℝ) (a b : Mat4) :
    a.mul (Mat4.smulM s b) = Mat4.smulM s (a.mul b) := by
  simp only [Mat4.mul, Mat4.mulVec, Mat4.smulM, Mat4.mk.injEq, Vec4.mk.injEq]
  refine ⟨⟨?_, ?_, ?_, ?_⟩, ⟨?_, ?_, ?_, ?_⟩, ⟨?_, ?_, ?_, ?_⟩, ⟨?_, ?_, ?_, ?_⟩⟩ <;> ring

/-- Lemma: scalar multiples slide out of the first factor of a product. -/
theorem Mat4.smulM_mul (s : ℝ) (a b : Mat4) :
    (Mat4.smulM s a).mul b = Mat4.smulM s (a.mul b) := by
  simp only [Mat4.mul, Mat4.mulVec, Mat4.smulM, Mat4.mk.injEq, Vec4.mk.injEq]
  refine ⟨⟨?_, ?_, ?_, ?_⟩, ⟨?_, ?_, ?_, ?_⟩, ⟨?_, ?_, ?_, ?_⟩, ⟨?_, ?_, ?_, ?_⟩⟩ <;> ring

/-- Lemma: nested scalar multiples combine. -/
theorem Mat4.smulM_smulM (s t : ℝ) (m : Mat4) :
    Mat4.smulM s (Mat4.smulM t m) = Mat4.smulM (s * t) m := by
  simp only [Mat4.smulM, Mat4.mk.injEq, Vec4.mk.injEq]
  refine ⟨⟨?_, ?_, ?_, ?_⟩, ⟨?_, ?_, ?_, ?_⟩, ⟨?_, ?_, ?_, ?_⟩, ⟨?_, ?_, ?_, ?_⟩⟩ <;> ring

/-- Lemma: scaling by one is the identity. -/
theorem Mat4.smulM_one (m : Mat4) : Mat4.smulM 1 m = m := by
  obtain ⟨⟨a00, a10, a20, a30⟩, ⟨a01, a11, a21, a31⟩,
    ⟨a02, a12, a22, a32⟩, ⟨a03, a13, a23, a33⟩⟩ := m
  simp only [Mat4.smulM, Mat4.mk.injEq, Vec4.mk.injEq]
  refine ⟨⟨?_, ?_, ?_, ?_⟩, ⟨?_, ?_, ?_, ?_⟩, ⟨?_, ?_, ?_, ?_⟩, ⟨?_, ?_, ?_, ?_⟩⟩ <;> ring

/-- Lemma: a matrix times its adjugate-based inverse is the identity,
whenever the determinant does not vanish. -/
theorem Mat4.mul_inverse (m : Mat4) (h : m.det ≠ 0) :
    m.mul m.inverse = Mat4.identity := by
  rw [Mat4.inverse, Mat4.mul_smulM, Mat4.mul_adj, Mat4.smulM_smulM,
    one_div, inv_mul_cancel₀ h, Mat4.smulM_one]

/-- Lemma: the adjugate-based inverse times the matrix is the identity,
whenever the determinant does not vanish. -/
theorem Mat4.inverse_mul (m : Mat4) (h : m.det ≠ 0) :
    m.inverse.mul m = Mat4.identity := by
  rw [Mat4.inverse, Mat4.smulM_mul, Mat4.adj_mul, Mat4.smulM_smulM,
    one_div, inv_mul_cancel₀ h, Mat4.smulM_one]

/-- Lemma: matrix application composes with matrix multiplication. -/
theorem Mat4.mul_mulVec (a b : Mat4) (v : Vec4) :
    (a.mul b).mulVec v = a.mulVec (b.mulVec v) := by
  simp only [Mat4.mul, Mat4.mulVec, Vec4.mk.injEq]
  refine ⟨?_, ?_, ?_, ?_⟩ <;> ring

/-- Lemma: the identity matrix acts as the identity on vectors. -/
theorem Mat4.identity_mulVec (v : Vec4) : Mat4.identity.mulVec v = v := by
  obtain ⟨x, y, z, w⟩ := v
  simp only [Mat4.identity, Mat4.mulVec, Vec4.mk.injEq]
  refine ⟨?_, ?_, ?_, ?_⟩ <;> ring

/-- Lemma: the identity matrix acts as the identity on points. -/
theorem Mat4.identity_mulPoint (v : Vec3) : Mat4.identity.mulPoint v = v := by
  obtain ⟨x, y, z⟩ := v
  simp only [Mat4.identity, Mat4.mulPoint, Mat4.mulVec, Vec3.mk.injEq]
  refine ⟨?_, ?_, ?_⟩ <;> ring

/-- Lemma: a vector whose fourth component is one equals its repacking
with a literal one. -/
theorem Vec4.pack_w_one (u : Vec4) (hu : u.w = 1) :
    (⟨u.x, u.y, u.z, 1⟩ : Vec4) = u := by
  rw [← hu]

/-- Lemma: the determinant of the ENU-to-ECEF matrix is one for every
origin (the basis columns are an orthonormal right-handed triad and the
bottom row is `(0, 0, 0, 1)`). -/
theorem calcEnuToEcef_det (lon lat h : ℝ) :
    (CalcEnuToEcefMatrix lon lat h).det = 1 := by
  simp only [CalcEnuToEcefMatrix, Mat4.det, det3]
  linear_combination
    (Real.sin (lat * Real.pi / 180) ^ 2 + Real.cos (lat * Real.pi / 180) ^ 2) *
      Real.sin_sq_add_cos_sq (lon * Real.pi / 180) +
    Real.sin_sq_add_cos_sq (lat * Real.pi / 180)

/-- Lemma: the bottom row of the ENU-to-ECEF matrix is `(0, 0, 0, 1)`. -/
theorem calcEnuToEcef_row_w (lon lat h : ℝ) :
    (CalcEnuToEcefMatrix lon lat h).c0.w = 0 ∧
    (CalcEnuToEcefMatrix lon lat h).c1.w = 0 ∧
    (CalcEnuToEcefMatrix lon lat h).c2.w = 0 ∧
    (CalcEnuToEcefMatrix lon lat h).c3.w = 1 := by
  refine ⟨rfl, rfl, rfl, rfl⟩

/-- Lemma: applying a homogeneous matrix with bottom row `(0, 0, 0, 1)`
and nonzero determinant to a point and then applying its inverse returns
the point. -/
theorem Mat4.inverse_cancel_point (m : Mat4) (hd : m.det ≠ 0)
    (h0 : m.c0.w = 0) (h1 : m.c1.w = 0) (h2 : m.c2.w = 0) (h3 : m.c3.w = 1)
    (v : Vec3) : m.inverse.mulPoint (m.mulPoint v) = v := by
  have hw : (m.mulVec ⟨v.x, v.y, v.z, 1⟩).w = 1 := by
    simp only [Mat4.mulVec]
    rw [h0, h1, h2, h3]
    ring
  have key : m.inverse.mulVec (m.mulVec ⟨v.x, v.y, v.z, 1⟩) = ⟨v.x, v.y, v.z, 1⟩ := by
    rw [← Mat4.mul_mulVec, Mat4.inverse_mul m hd, Mat4.identity_mulVec]
  simp only [Mat4.mulPoint]
  rw [Vec4.pack_w_one _ hw, key]

/-- Lemma: converting between identical up axes is the identity matrix. -/
theorem getAxisTransformMatrix_same (a : UpAxis) :
    GetAxisTransformMatrix a a = Mat4.identity := by
  simp [GetAxisTransformMatrix]

/-- Lemma: every non-LocalCartesian coordinate system reports `Y_UP`. -/
theorem getUpAxis_of_needsOGR (cs : CoordinateSystem)
    (h : cs.NeedsOGRTransform = true) : cs.GetUpAxis = UpAxis.Y_UP := by
  cases cs <;> simp_all [CoordinateSystem.NeedsOGRTransform, CoordinateSystem.ctype,
    CoordinateSystem.GetUpAxis]

/-- C1: the claim (and the repository's own inline comments plus the unit
test `test_axis_transform`) demand `ConvertUpAxis((1, 2, 3), Y_UP) =
(1, 3, −2)` on a Z-Up source, but the code's column-major matrix literal
implements the transposed rotation and actually produces `(1, −3, 2)`:
the code contradicts its own test, so the claim marks a code bug. -/
theorem c1_convertUpAxis_bug :
    CoordinateTransformer.ConvertUpAxis
        (mkTransformerNone
          (CoordinateSystem.localCartesian ⟨UpAxis.Z_UP, Handedness.RightHanded⟩)
          trivialGeoid)
        ⟨1, 2, 3⟩ UpAxis.Y_UP = ⟨1, -3, 2⟩ ∧
    CoordinateTransformer.ConvertUpAxis
        (mkTransformerNone
          (CoordinateSystem.localCartesian ⟨UpAxis.Z_UP, Handedness.RightHanded⟩)
          trivialGeoid)
        ⟨1, 2, 3⟩ UpAxis.Y_UP ≠ ⟨1, 3, -2⟩ := by
  constructor
  · simp [CoordinateTransformer.ConvertUpAxis, mkTransformerNone,
      CoordinateSystem.GetUpAxis, GetAxisTransformMatrix, Mat4.mulPoint, Mat4.mulVec,
      Vec3.mk.injEq]
  · simp [CoordinateTransformer.ConvertUpAxis, mkTransformerNone,
      CoordinateSystem.GetUpAxis, GetAxisTransformMatrix, Mat4.mulPoint, Mat4.mulVec,
      Vec3.mk.injEq]
    intro h3
    norm_num at h3

/-- C4: `CalcEnuToEcefMatrix(λ°, φ°, h)` has columns `E`, `Nhat`, `U` and
the ECEF origin, exactly as the specification's canonical formula states,
with `a = 6378137`, `f = 1/298.257223563`, `e² = f(2−f)`. -/
theorem c4_calcEnuToEcefMatrix_formula (lon lat h : ℝ) :
    (CalcEnuToEcefMatrix lon lat h).c0 =
      ⟨-Real.sin (lon * Real.pi / 180), Real.cos (lon * Real.pi / 180), 0, 0⟩ ∧
    (CalcEnuToEcefMatrix lon lat h).c1 =
      ⟨-Real.sin (lat * Real.pi / 180) * Real.cos (lon * Real.pi / 180),
       -Real.sin (lat * Real.pi / 180) * Real.sin (lon * Real.pi / 180),
       Real.cos (lat * Real.pi / 180), 0⟩ ∧
    (CalcEnuToEcefMatrix lon lat h).c2 =
      ⟨Real.cos (lat * Real.pi / 180) * Real.cos (lon * Real.pi / 180),
       Real.cos (lat * Real.pi / 180) * Real.sin (lon * Real.pi / 180),
       Real.sin (lat * Real.pi / 180), 0⟩ ∧
    (CalcEnuToEcefMatrix lon lat h).c3 =
      ⟨(6378137 / Real.sqrt (1 - ((1 / 298.257223563) * (2 - 1 / 298.257223563)) *
            Real.sin (lat * Real.pi / 180) ^ 2) + h) *
          Real.cos (lat * Real.pi / 180) * Real.cos (lon * Real.pi / 180),
       (6378137 / Real.sqrt (1 - ((1 / 298.257223563) * (2 - 1 / 298.257223563)) *
            Real.sin (lat * Real.pi / 180) ^ 2) + h) *
          Real.cos (lat * Real.pi / 180) * Real.sin (lon * Real.pi / 180),
       (6378137 / Real.sqrt (1 - ((1 / 298.257223563) * (2 - 1 / 298.257223563)) *
            Real.sin (lat * Real.pi / 180) ^ 2) *
          (1 - (1 / 298.257223563) * (2 - 1 / 298.257223563)) + h) *
          Real.sin (lat * Real.pi / 180), 1⟩ := by
  refine ⟨rfl, rfl, rfl, ?_⟩
  simp only [CalcEnuToEcefMatrix, WGS84_A, WGS84_E2, WGS84_F, Vec4.mk.injEq]
  refine ⟨?_, ?_, ?_, ?_⟩ <;> ring_nf

/-- C10: the translation column of `CalcEnuToEcefMatrix` coincides with
the independently coded `CartographicToEcef` at every input: the two
functions compute the same geographic-to-ECEF formula. -/
theorem c10_translation_column_is_cartographicToEcef (lon lat h : ℝ) :
    (CalcEnuToEcefMatrix lon lat h).c3 =
      ⟨(CartographicToEcef lon lat h).x, (CartographicToEcef lon lat h).y,
       (CartographicToEcef lon lat h).z, 1⟩ :=
  rfl

/-- C6: a transformer constructed with the single-argument constructor
(mode `None`) passes every point through all three geographic operations
unchanged. -/
theorem c6_mode_none_passthrough (cs : CoordinateSystem) (g : GeoidCalculator)
    (p : Vec3) :
    (mkTransformerNone cs g).ToWGS84 p = p ∧
    (mkTransformerNone cs g).ToECEF p = p ∧
    (mkTransformerNone cs g).ToLocalENU p = p := by
  refine ⟨?_, ?_, ?_⟩ <;>
    simp [CoordinateTransformer.ToWGS84, CoordinateTransformer.ToECEF,
      CoordinateTransformer.ToLocalENU, CoordinateTransformer.HasGeoReference,
      mkTransformerNone]

/-- C8 (amended): for an ENU-built transformer, `ToWGS84(p)` returns
`(geo_origin_lon, geo_origin_lat, geo_origin_height + (p.z + offset_z))` —
the code adds the SRSOrigin z offset to the input z before reusing it,
which the original claim omits. -/
theorem c8_enu_toWGS84_offset (ep : ENUParams) (gr : GeoReference)
    (gc : GeoidConfig) (o : Option (Vec3 → Vec3)) (g : GeoidCalculator)
    (p : Vec3) :
    (mkTransformerWithGeoRef (CoordinateSystem.enu ep) gr gc o g).ToWGS84 p =
      ⟨ep.origin_lon, ep.origin_lat, ep.origin_height + (p.z + ep.offset_z)⟩ := by
  simp [CoordinateTransformer.ToWGS84, mkTransformerWithGeoRef,
    CoordinateTransformer.HasGeoReference, ResolveGeoOrigin,
    CoordinateSystem.ctype, CoordinateSystem.GetENUParams,
    CoordinateSystem.GetUpAxis, getAxisTransformMatrix_same,
    Mat4.identity_mulPoint]

/-- C8 counterexample: with the unit test's ENU system
`ENU(117, 35, 0, −958, −993, 69)` and input `(0, 0, 0)`, the claim says
`ToWGS84` returns `(117, 35, 0 + 0) = (117, 35, 0)`, but the code returns
`(117, 35, 69)` because `offset_z = 69` is added first. -/
theorem c8_counterexample :
    (mkTransformerWithGeoRef
        (CoordinateSystem.enu ⟨117, 35, 0, -958, -993, 69⟩)
        ⟨0, 0, 0, VerticalDatum.Ellipsoidal⟩ GeoidConfig.Disabled none
        trivialGeoid).ToWGS84 ⟨0, 0, 0⟩ ≠ ⟨117, 35, 0⟩ := by
  simp [CoordinateTransformer.ToWGS84, mkTransformerWithGeoRef,
    CoordinateTransformer.HasGeoReference, ResolveGeoOrigin,
    CoordinateSystem.ctype, CoordinateSystem.GetENUParams,
    CoordinateSystem.GetUpAxis, getAxisTransformMatrix_same,
    Mat4.identity_mulPoint, Vec3.mk.injEq]

/-- C7: for an ENU-built transformer, `ToLocalENU` adds the SRSOrigin
offset, maps through `enu_to_ecef`, and maps back through `ecef_to_enu`;
at the zero vector this is the local-ENU image of the offset, which equals
the offset exactly in real arithmetic. -/
theorem c7_enu_toLocalENU (ep : ENUParams) (gr : GeoReference)
    (gc : GeoidConfig) (o : Option (Vec3 → Vec3)) (g : GeoidCalculator)
    (p : Vec3) :
    (mkTransformerWithGeoRef (CoordinateSystem.enu ep) gr gc o g).ToLocalENU p =
      (mkTransformerWithGeoRef (CoordinateSystem.enu ep) gr gc o g).ecef_to_enu.mulPoint
        ((mkTransformerWithGeoRef (CoordinateSystem.enu ep) gr gc o g).enu_to_ecef.mulPoint
          ⟨p.x + ep.offset_x, p.y + ep.offset_y, p.z + ep.offset_z⟩) ∧
    (mkTransformerWithGeoRef (CoordinateSystem.enu ep) gr gc o g).ToLocalENU ⟨0, 0, 0⟩ =
      (mkTransformerWithGeoRef (CoordinateSystem.enu ep) gr gc o g).ecef_to_enu.mulPoint
        ((mkTransformerWithGeoRef (CoordinateSystem.enu ep) gr gc o g).enu_to_ecef.mulPoint
          ⟨ep.offset_x, ep.offset_y, ep.offset_z⟩) ∧
    (mkTransformerWithGeoRef (CoordinateSystem.enu ep) gr gc o g).ToLocalENU ⟨0, 0, 0⟩ =
      ⟨ep.offset_x, ep.offset_y, ep.offset_z⟩ := by
  refine ⟨?_, ?_, ?_⟩
  · simp [CoordinateTransformer.ToLocalENU, mkTransformerWithGeoRef,
      CoordinateTransformer.HasGeoReference, CoordinateSystem.ctype,
      CoordinateSystem.GetENUParams]
  · simp [CoordinateTransformer.ToLocalENU, mkTransformerWithGeoRef,
      CoordinateTransformer.HasGeoReference, CoordinateSystem.ctype,
      CoordinateSystem.GetENUParams]
  · simp only [CoordinateTransformer.ToLocalENU, mkTransformerWithGeoRef,
      CoordinateTransformer.HasGeoReference, CoordinateSystem.ctype,
      CoordinateSystem.GetENUParams]
    simp [zero_add]
    exact Mat4.inverse_cancel_point _ (by rw [calcEnuToEcef_det]; norm_num)
      rfl rfl rfl rfl _

/-- C9: for every geo-referenced transformer, the cached `ecef_to_enu`
matrix is exactly the `glm::inverse` of the cached `enu_to_ecef` matrix,
and the two are genuine two-sided inverses (the ENU-to-ECEF matrix has
determinant one at every origin). -/
theorem c9_ecef_to_enu_is_inverse (cs : CoordinateSystem) (gr : GeoReference)
    (gc : GeoidConfig) (o : Option (Vec3 → Vec3)) (g : GeoidCalculator) :
    (mkTransformerWithGeoRef cs gr gc o g).ecef_to_enu =
      Mat4.inverse ((mkTransformerWithGeoRef cs gr gc o g).enu_to_ecef) ∧
    ((mkTransformerWithGeoRef cs gr gc o g).enu_to_ecef).mul
      ((mkTransformerWithGeoRef cs gr gc o g).ecef_to_enu) = Mat4.identity ∧
    ((mkTransformerWithGeoRef cs gr gc o g).ecef_to_enu).mul
      ((mkTransformerWithGeoRef cs gr gc o g).enu_to_ecef) = Mat4.identity := by
  have hd : ((mkTransformerWithGeoRef cs gr gc o g).enu_to_ecef).det ≠ 0 := by
    have h2 : (mkTransformerWithGeoRef cs gr gc o g).enu_to_ecef =
        CalcEnuToEcefMatrix (ResolveGeoOrigin cs gr gc o g).1
          (ResolveGeoOrigin cs gr gc o g).2.1
          (ResolveGeoOrigin cs gr gc o g).2.2 := rfl
    rw [h2, calcEnuToEcef_det]
    norm_num
  have h1 : (mkTransformerWithGeoRef cs gr gc o g).ecef_to_enu =
      Mat4.inverse ((mkTransformerWithGeoRef cs gr gc o g).enu_to_ecef) := rfl
  refine ⟨h1, ?_, ?_⟩
  · rw [h1]
    exact Mat4.mul_inverse _ hd
  · rw [h1]
    exact Mat4.inverse_mul _ hd

/-- C3 counterexample: for a transformer whose source system is the
`Unknown` bottom value, the geoid config is enabled, the calculator is
initialized, and `GetVerticalDatum` returns `Unknown` (a member of
`{Orthometric, Unknown}`), yet the code never applies the correction —
the claimed if-and-only-if fails on the `Unknown` variant. -/
theorem c3_counterexample :
    enabledConfig.enabled = true ∧
    activeGeoid.isInitialized = true ∧
    (CoordinateSystem.unknown.GetVerticalDatum = VerticalDatum.Orthometric ∨
      CoordinateSystem.unknown.GetVerticalDatum = VerticalDatum.Unknown) ∧
    ShouldApplyGeoidCorrection CoordinateSystem.unknown enabledConfig activeGeoid = false ∧
    ApplyGeoidCorrection CoordinateSystem.unknown enabledConfig activeGeoid 1 2 3 = 3 :=
  ⟨rfl, rfl, Or.inr rfl, rfl, rfl⟩

/-- C3 (amended): geoid correction is applied iff the config is enabled,
the calculator is initialized, the source system is EPSG or WKT, and its
vertical datum is Orthometric or Unknown; ENU, LocalCartesian (and the
Unknown bottom value) never receive correction, and whenever correction is
skipped the height passes through unchanged. -/
theorem c3_geoid_policy (cs : CoordinateSystem) (gc : GeoidConfig)
    (g : GeoidCalculator) (lat lon h : ℝ) :
    (ShouldApplyGeoidCorrection cs gc g = true ↔
      gc.enabled = true ∧ g.isInitialized = true ∧ cs.NeedsOGRTransform = true ∧
        (cs.GetVerticalDatum = VerticalDatum.Orthometric ∨
         cs.GetVerticalDatum = VerticalDatum.Unknown)) ∧
    (cs.ctype = CoordinateType.ENU ∨ cs.ctype = CoordinateType.LocalCartesian →
      ShouldApplyGeoidCorrection cs gc g = false) ∧
    (ShouldApplyGeoidCorrection cs gc g = false →
      ApplyGeoidCorrection cs gc g lat lon h = h) := by
  refine ⟨?_, ?_, ?_⟩
  · cases cs <;> cases hgc : gc.enabled <;> cases hg : g.isInitialized <;>
      simp_all [ShouldApplyGeoidCorrection, CoordinateSystem.NeedsOGRTransform,
        CoordinateSystem.ctype, CoordinateSystem.GetVerticalDatum]
  · intro hcs
    cases cs <;> simp_all [ShouldApplyGeoidCorrection, CoordinateSystem.ctype]
  · intro hS
    simp [ApplyGeoidCorrection, hS]

/-- C3 witness: a LocalCartesian source with enabled config and
initialized calculator still passes the height through. -/
theorem c3_geoid_policy_witness :
    ApplyGeoidCorrection
      (CoordinateSystem.localCartesian ⟨UpAxis.Y_UP, Handedness.RightHanded⟩)
      enabledConfig activeGeoid 1 2 3 = 3 :=
  (c3_geoid_policy (CoordinateSystem.localCartesian ⟨UpAxis.Y_UP, Handedness.RightHanded⟩)
    enabledConfig activeGeoid 1 2 3).2.2 rfl

/-- C5 counterexample: an EPSG transformer whose OGR handle creation
failed does not pass points through `ToWGS84` — on input `(5, 6, 7)` it
falls into the LocalCartesian fallback and returns
`(geo_origin_lon, geo_origin_lat, geo_origin_height + 7) = (1, 2, 10)`. -/
theorem c5_counterexample :
    (mkTransformerWithGeoRef
        (CoordinateSystem.epsg ⟨4545, 0, 0, 0, VerticalDatum.Unknown⟩)
        ⟨1, 2, 3, VerticalDatum.Ellipsoidal⟩ GeoidConfig.Disabled none
        trivialGeoid).ToWGS84 ⟨5, 6, 7⟩ ≠ ⟨5, 6, 7⟩ := by
  have horigin : ResolveGeoOrigin
      (CoordinateSystem.epsg ⟨4545, 0, 0, 0, VerticalDatum.Unknown⟩)
      ⟨1, 2, 3, VerticalDatum.Ellipsoidal⟩ GeoidConfig.Disabled none
      trivialGeoid = (1, 2, 3) := by
    simp [ResolveGeoOrigin, CoordinateSystem.ctype, CoordinateSystem.NeedsOGRTransform,
      GeoidConfig.Disabled]
  simp [CoordinateTransformer.ToWGS84, mkTransformerWithGeoRef,
    CoordinateTransformer.HasGeoReference, horigin, CoordinateSystem.ctype,
    CoordinateSystem.NeedsOGRTransform, CoordinateSystem.GetUpAxis,
    getAxisTransformMatrix_same, Mat4.identity_mulPoint, Vec3.mk.injEq]

/-- C5 (amended): when OGR handle creation failed (empty handle) on an
EPSG/WKT source, `ToLocalENU` passes its input through unchanged, while
`ToWGS84` falls back to `(geo_origin_lon, geo_origin_lat,
geo_origin_height + p.z)` and `ToECEF` to `CartographicToEcef` of that
triplet — none of the three crashes, but only `ToLocalENU` is an identity. -/
theorem c5_empty_handle_behavior (cs : CoordinateSystem) (gr : GeoReference)
    (gc : GeoidConfig) (g : GeoidCalculator) (p : Vec3)
    (hogr : cs.NeedsOGRTransform = true) :
    (mkTransformerWithGeoRef cs gr gc none g).ToLocalENU p = p ∧
    (mkTransformerWithGeoRef cs gr gc none g).ToWGS84 p =
      ⟨(mkTransformerWithGeoRef cs gr gc none g).geo_origin_lon,
       (mkTransformerWithGeoRef cs gr gc none g).geo_origin_lat,
       (mkTransformerWithGeoRef cs gr gc none g).geo_origin_height + p.z⟩ ∧
    (mkTransformerWithGeoRef cs gr gc none g).ToECEF p =
      CartographicToEcef (mkTransformerWithGeoRef cs gr gc none g).geo_origin_lon
        (mkTransformerWithGeoRef cs gr gc none g).geo_origin_lat
        ((mkTransformerWithGeoRef cs gr gc none g).geo_origin_height + p.z) := by
  cases cs with
  | unknown => simp [CoordinateSystem.NeedsOGRTransform, CoordinateSystem.ctype] at hogr
  | localCartesian ps =>
      simp [CoordinateSystem.NeedsOGRTransform, CoordinateSystem.ctype] at hogr
  | enu ps => simp [CoordinateSystem.NeedsOGRTransform, CoordinateSystem.ctype] at hogr
  | epsg ps =>
      refine ⟨?_, ?_, ?_⟩ <;>
        simp [CoordinateTransformer.ToLocalENU, CoordinateTransformer.ToWGS84,
          CoordinateTransformer.ToECEF, mkTransformerWithGeoRef,
          CoordinateTransformer.HasGeoReference, CoordinateSystem.ctype,
          CoordinateSystem.NeedsOGRTransform, CoordinateSystem.GetUpAxis,
          getAxisTransformMatrix_same, Mat4.identity_mulPoint]
  | wkt ps =>
      refine ⟨?_, ?_, ?_⟩ <;>
        simp [CoordinateTransformer.ToLocalENU, CoordinateTransformer.ToWGS84,
          CoordinateTransformer.ToECEF, mkTransformerWithGeoRef,
          CoordinateTransformer.HasGeoReference, CoordinateSystem.ctype,
          CoordinateSystem.NeedsOGRTransform, CoordinateSystem.GetUpAxis,
          getAxisTransformMatrix_same, Mat4.identity_mulPoint]

/-- C5 witness: a concrete EPSG transformer with empty handle passes a
point through `ToLocalENU`. -/
theorem c5_empty_handle_witness :
    (mkTransformerWithGeoRef
        (CoordinateSystem.epsg ⟨4545, 0, 0, 0, VerticalDatum.Unknown⟩)
        ⟨1, 2, 3, VerticalDatum.Ellipsoidal⟩ GeoidConfig.Disabled none
        trivialGeoid).ToLocalENU ⟨5, 6, 7⟩ = ⟨5, 6, 7⟩ :=
  (c5_empty_handle_behavior
    (CoordinateSystem.epsg ⟨4545, 0, 0, 0, VerticalDatum.Unknown⟩)
    ⟨1, 2, 3, VerticalDatum.Ellipsoidal⟩ GeoidConfig.Disabled trivialGeoid
    ⟨5, 6, 7⟩ rfl).1

/-- C2 (amended): `ToLocalENU(p) = ecef_to_enu · ToECEF(p)` holds for
every ENU source, and for EPSG/WKT sources with a live OGR handle
whenever geoid correction is skipped; it does not hold in general (the
LocalCartesian branch of `ToLocalENU` bypasses the ECEF pipeline, and the
EPSG/WKT branch additionally applies geoid correction that `ToECEF`
omits). -/
theorem c2_toECEF_refines_toLocalENU :
    (∀ (ep : ENUParams) (gr : GeoReference) (gc : GeoidConfig)
        (o : Option (Vec3 → Vec3)) (g : GeoidCalculator) (p : Vec3),
      (mkTransformerWithGeoRef (CoordinateSystem.enu ep) gr gc o g).ToLocalENU p =
        (mkTransformerWithGeoRef (CoordinateSystem.enu ep) gr gc o g).ecef_to_enu.mulPoint
          ((mkTransformerWithGeoRef (CoordinateSystem.enu ep) gr gc o g).ToECEF p)) ∧
    (∀ (cs : CoordinateSystem) (gr : GeoReference) (gc : GeoidConfig)
        (f : Vec3 → Vec3) (g : GeoidCalculator) (p : Vec3),
      cs.NeedsOGRTransform = true →
      ShouldApplyGeoidCorrection cs gc g = false →
      (mkTransformerWithGeoRef cs gr gc (some f) g).ToLocalENU p =
        (mkTransformerWithGeoRef cs gr gc (some f) g).ecef_to_enu.mulPoint
          ((mkTransformerWithGeoRef cs gr gc (some f) g).ToECEF p)) := by
  constructor
  · intro ep gr gc o g p
    simp [CoordinateTransformer.ToLocalENU, CoordinateTransformer.ToECEF,
      mkTransformerWithGeoRef, CoordinateTransformer.HasGeoReference,
      CoordinateSystem.ctype, CoordinateSystem.GetENUParams,
      CoordinateSystem.GetUpAxis, getAxisTransformMatrix_same,
      Mat4.identity_mulPoint]
  · intro cs gr gc f g p hogr hskip
    cases cs with
    | unknown => simp [CoordinateSystem.NeedsOGRTransform, CoordinateSystem.ctype] at hogr
    | localCartesian ps =>
        simp [CoordinateSystem.NeedsOGRTransform, CoordinateSystem.ctype] at hogr
    | enu ps => simp [CoordinateSystem.NeedsOGRTransform, CoordinateSystem.ctype] at hogr
    | epsg ps =>
        simp [CoordinateTransformer.ToLocalENU, CoordinateTransformer.ToECEF,
          CoordinateTransformer.ToWGS84, mkTransformerWithGeoRef,
          CoordinateTransformer.HasGeoReference, CoordinateSystem.ctype,
          CoordinateSystem.NeedsOGRTransform, CoordinateSystem.GetUpAxis,
          getAxisTransformMatrix_same, Mat4.identity_mulPoint,
          ApplyGeoidCorrection, hskip]
    | wkt ps =>
        simp [CoordinateTransformer.ToLocalENU, CoordinateTransformer.ToECEF,
          CoordinateTransformer.ToWGS84, mkTransformerWithGeoRef,
          CoordinateTransformer.HasGeoReference, CoordinateSystem.ctype,
          CoordinateSystem.NeedsOGRTransform, CoordinateSystem.GetUpAxis,
          getAxisTransformMatrix_same, Mat4.identity_mulPoint,
          ApplyGeoidCorrection, hskip]

/-- C2 counterexample: on a LocalCartesian source anchored at the origin,
`ToLocalENU((1, 0, 0)) = (1, 0, 0)` but `ecef_to_enu · ToECEF((1, 0, 0))
= (0, 0, 0)`, so `ToECEF` is not `ToLocalENU` without the final
multiplication for all variants. -/
theorem c2_counterexample :
    (mkTransformerWithGeoRef
        (CoordinateSystem.localCartesian ⟨UpAxis.Y_UP, Handedness.RightHanded⟩)
        ⟨0, 0, 0, VerticalDatum.Ellipsoidal⟩ GeoidConfig.Disabled none
        trivialGeoid).ToLocalENU ⟨1, 0, 0⟩ ≠
      (mkTransformerWithGeoRef
        (CoordinateSystem.localCartesian ⟨UpAxis.Y_UP, Handedness.RightHanded⟩)
        ⟨0, 0, 0, VerticalDatum.Ellipsoidal⟩ GeoidConfig.Disabled none
        trivialGeoid).ecef_to_enu.mulPoint
        ((mkTransformerWithGeoRef
          (CoordinateSystem.localCartesian ⟨UpAxis.Y_UP, Handedness.RightHanded⟩)
          ⟨0, 0, 0, VerticalDatum.Ellipsoidal⟩ GeoidConfig.Disabled none
          trivialGeoid).ToECEF ⟨1, 0, 0⟩) := by
  have hL : (mkTransformerWithGeoRef
      (CoordinateSystem.localCartesian ⟨UpAxis.Y_UP, Handedness.RightHanded⟩)
      ⟨0, 0, 0, VerticalDatum.Ellipsoidal⟩ GeoidConfig.Disabled none
      trivialGeoid).ToLocalENU ⟨1, 0, 0⟩ = ⟨1, 0, 0⟩ := by
    simp [CoordinateTransformer.ToLocalENU, mkTransformerWithGeoRef,
      CoordinateTransformer.HasGeoReference, CoordinateSystem.ctype,
      CoordinateSystem.NeedsOGRTransform]
  have hE : (mkTransformerWithGeoRef
      (CoordinateSystem.localCartesian ⟨UpAxis.Y_UP, Handedness.RightHanded⟩)
      ⟨0, 0, 0, VerticalDatum.Ellipsoidal⟩ GeoidConfig.Disabled none
      trivialGeoid).ToECEF ⟨1, 0, 0⟩ = CartographicToEcef 0 0 0 := by
    simp [CoordinateTransformer.ToECEF, CoordinateTransformer.ToWGS84,
      mkTransformerWithGeoRef, CoordinateTransformer.HasGeoReference,
      CoordinateSystem.ctype, CoordinateSystem.NeedsOGRTransform,
      CoordinateSystem.GetUpAxis, getAxisTransformMatrix_same,
      Mat4.identity_mulPoint, ResolveGeoOrigin]
  have hC : CartographicToEcef 0 0 0 = ⟨6378137, 0, 0⟩ := by
    simp [CartographicToEcef, WGS84_A]
  have hM : (CalcEnuToEcefMatrix 0 0 0).mulPoint ⟨0, 0, 0⟩ = ⟨6378137, 0, 0⟩ := by
    simp [CalcEnuToEcefMatrix, Mat4.mulPoint, Mat4.mulVec, WGS84_A]
  have hst : (mkTransformerWithGeoRef
      (CoordinateSystem.localCartesian ⟨UpAxis.Y_UP, Handedness.RightHanded⟩)
      ⟨0, 0, 0, VerticalDatum.Ellipsoidal⟩ GeoidConfig.Disabled none
      trivialGeoid).ecef_to_enu = Mat4.inverse (CalcEnuToEcefMatrix 0 0 0) := rfl
  have hinv : (Mat4.inverse (CalcEnuToEcefMatrix 0 0 0)).mulPoint ⟨6378137, 0, 0⟩
      = ⟨0, 0, 0⟩ := by
    rw [← hM]
    exact Mat4.inverse_cancel_point _ (by rw [calcEnuToEcef_det]; norm_num)
      rfl rfl rfl rfl _
  rw [hL, hE, hC, hst, hinv]
  simp [Vec3.mk.injEq]

/-- C2 witness: the EPSG part of the amended claim at a concrete
transformer with a live (identity) projection handle and geoid correction
disabled. -/
theorem c2_witness :
    (mkTransformerWithGeoRef
        (CoordinateSystem.epsg ⟨4545, 0, 0, 0, VerticalDatum.Unknown⟩)
        ⟨1, 2, 3, VerticalDatum.Ellipsoidal⟩ GeoidConfig.Disabled
        (some (fun v => v)) trivialGeoid).ToLocalENU ⟨4, 5, 6⟩ =
      (mkTransformerWithGeoRef
        (CoordinateSystem.epsg ⟨4545, 0, 0, 0, VerticalDatum.Unknown⟩)
        ⟨1, 2, 3, VerticalDatum.Ellipsoidal⟩ GeoidConfig.Disabled
        (some (fun v => v)) trivialGeoid).ecef_to_enu.mulPoint
        ((mkTransformerWithGeoRef
          (CoordinateSystem.epsg ⟨4545, 0, 0, 0, VerticalDatum.Unknown⟩)
          ⟨1, 2, 3, VerticalDatum.Ellipsoidal⟩ GeoidConfig.Disabled
          (some (fun v => v)) trivialGeoid).ToECEF ⟨4, 5, 6⟩) :=
  c2_toECEF_refines_toLocalENU.2
    (CoordinateSystem.epsg ⟨4545, 0, 0, 0, VerticalDatum.Unknown⟩)
    ⟨1, 2, 3, VerticalDatum.Ellipsoidal⟩ GeoidConfig.Disabled
    (fun v => v) trivialGeoid ⟨4, 5, 6⟩ rfl rfl
